import Mathlib

/-!
Verification of the solar project finance calculator
(`src/backend/calculator.py`, class `SolarFinanceCalculator`) against its
specification.  The Python code is shallowly embedded over `ℚ`: Python floats
become exact rationals, Python `None` becomes `Option.none`, the bounded
Newton loop of `irr_calc` becomes a fuel-counted recursion, and the payback
`for` loops become structural recursions over the remaining years.
-/

/-- Embeds the dataclass `ProjectInputs` of calculator.py.  Monetary amounts and
rates are rationals; `Debt_Tenor` and `Project_Lifetime` are the year counts. -/
structure ProjectInputs where
  Capacity : ℚ
  P50_Year_0_Yield : ℚ
  CapEx_per_MW : ℚ
  PPA_Price : ℚ
  OM_Cost_per_MW_year : ℚ
  Degradation_Rate : ℚ
  PPA_Escalation : ℚ
  OM_Escalation : ℚ
  Gearing_Ratio : ℚ
  Interest_Rate : ℚ
  Debt_Tenor : ℕ
  Target_DSCR : ℚ
  Project_Lifetime : ℕ
  Tax_Rate : ℚ
  Discount_Rate : ℚ

/-- The input domain of spec §6 (the ranges the external request layer
enforces): capacity>0, yield>0, 0≤degradation≤0.1, −0.1≤escalations≤0.1,
0≤gearing≤1, 0<interest≤0.2, 0<tenor≤30, targetDSCR>1, 0<lifetime≤50,
0≤tax≤1, 0<discount≤0.3. -/
def Valid (p : ProjectInputs) : Prop :=
  0 < p.Capacity ∧ 0 < p.P50_Year_0_Yield ∧
  0 ≤ p.Degradation_Rate ∧ p.Degradation_Rate ≤ 1 / 10 ∧
  -(1 / 10) ≤ p.PPA_Escalation ∧ p.PPA_Escalation ≤ 1 / 10 ∧
  -(1 / 10) ≤ p.OM_Escalation ∧ p.OM_Escalation ≤ 1 / 10 ∧
  0 ≤ p.Gearing_Ratio ∧ p.Gearing_Ratio ≤ 1 ∧
  0 < p.Interest_Rate ∧ p.Interest_Rate ≤ 1 / 5 ∧
  0 < p.Debt_Tenor ∧ p.Debt_Tenor ≤ 30 ∧
  1 < p.Target_DSCR ∧
  0 < p.Project_Lifetime ∧ p.Project_Lifetime ≤ 50 ∧
  0 ≤ p.Tax_Rate ∧ p.Tax_Rate ≤ 1 ∧
  0 < p.Discount_Rate ∧ p.Discount_Rate ≤ 3 / 10

instance (p : ProjectInputs) : Decidable (Valid p) := by
  unfold Valid; infer_instance

/-- The generator sum inside irr_calc, recursing over the enumerated list with
its running index `i`. -/
def npvAux (rate : ℚ) : ℕ → List ℚ → ℚ
  | _, [] => 0
  | i, v :: vs => v / (1 + rate) ^ i + npvAux rate (i + 1) vs

/-- The NPV objective inside irr_calc: `sum(val / (1+rate)**i for i, val in
enumerate(values))`, index 0 undiscounted. -/
def npv_at_rate (values : List ℚ) (rate : ℚ) : ℚ :=
  npvAux rate 0 values

/-- The generator sum of the derivative inside irr_calc, recursing over the
enumerated list with its running index `i`. -/
def npvDerivAux (rate : ℚ) : ℕ → List ℚ → ℚ
  | _, [] => 0
  | i, v :: vs => -(i : ℚ) * v / (1 + rate) ^ (i + 1) + npvDerivAux rate (i + 1) vs

/-- The analytic derivative inside irr_calc:
`sum(-i * val / (1+rate)**(i+1) for i, val in enumerate(values))`. -/
def npv_derivative (values : List ℚ) (rate : ℚ) : ℚ :=
  npvDerivAux rate 0 values

/-- The Newton loop of irr_calc with explicit fuel: fuel 0 means the
`for _ in range(100)` loop is exhausted and the current rate is returned;
otherwise one iteration checks `abs(npv) < 1e-6` (success), then
`abs(deriv) < 1e-10` (break, returning the last rate), then steps. -/
def irr_go (values : List ℚ) : ℕ → ℚ → ℚ
  | 0, rate => rate
  | n + 1, rate =>
    let npv_val := npv_at_rate values rate
    if |npv_val| < 1 / 1000000 then rate
    else
      let npv_deriv := npv_derivative values rate
      if |npv_deriv| < 1 / 10000000000 then rate
      else irr_go values n (rate - npv_val / npv_deriv)

/-- irr_calc of calculator.py: Newton-Raphson, 100 iterations, returning a bare
rate in every termination case. -/
def irr_calc (values : List ℚ) (guess : ℚ) : ℚ :=
  irr_go values 100 guess

/-- Modelled from the spec: §7 requires the engine to return a tagged result
`Converged(rate)` vs `DidNotConverge(lastRate)`; no such type exists in the
code, whose irr_calc returns an unqualified number. -/
inductive IRROutcome where
  | Converged : ℚ → IRROutcome
  | DidNotConverge : ℚ → IRROutcome
deriving DecidableEq

/-- The rate carried by a tagged IRR outcome, forgetting the tag. -/
def IRROutcome.rate : IRROutcome → ℚ
  | Converged r => r
  | DidNotConverge r => r

/-- Modelled from the spec: the same Newton loop as `irr_go`, but tagging the
three termination cases as §7 demands — tolerance met is `Converged`,
derivative underflow and fuel exhaustion are `DidNotConverge` with the last
rate reached. -/
def irr_go_tagged (values : List ℚ) : ℕ → ℚ → IRROutcome
  | 0, rate => .DidNotConverge rate
  | n + 1, rate =>
    let npv_val := npv_at_rate values rate
    if |npv_val| < 1 / 1000000 then .Converged rate
    else
      let npv_deriv := npv_derivative values rate
      if |npv_deriv| < 1 / 10000000000 then .DidNotConverge rate
      else irr_go_tagged values n (rate - npv_val / npv_deriv)

/-- Modelled from the spec: irr_calc as §7 says it should be, with the tag. -/
def irr_calc_tagged (values : List ℚ) (guess : ℚ) : IRROutcome :=
  irr_go_tagged values 100 guess

/-- pmt_calc of calculator.py: standard amortizing payment, with the rate-zero
special case. -/
def pmt_calc (rate : ℚ) (nper : ℕ) (pv : ℚ) (fv : ℚ) : ℚ :=
  if rate = 0 then -(pv + fv) / (nper : ℚ)
  else -rate * (pv * (1 + rate) ^ nper + fv) / ((1 + rate) ^ nper - 1)

/-- calc_Total_CapEx: Capacity × CapEx_per_MW. -/
def calc_Total_CapEx (p : ProjectInputs) : ℚ :=
  p.Capacity * p.CapEx_per_MW

/-- calc_Energy_year_t: P50_Year_0_Yield × (1 − Degradation)^(year−1). -/
def calc_Energy_year_t (p : ProjectInputs) (year : ℕ) : ℚ :=
  p.P50_Year_0_Yield * (1 - p.Degradation_Rate) ^ (year - 1)

/-- calc_Revenue_year_t: Energy × PPA_Price × (1 + Escalation)^(year−1). -/
def calc_Revenue_year_t (p : ProjectInputs) (year : ℕ) : ℚ :=
  calc_Energy_year_t p year * p.PPA_Price * (1 + p.PPA_Escalation) ^ (year - 1)

/-- calc_OM_year_t: Capacity × OM_Cost × (1 + Escalation)^(year−1). -/
def calc_OM_year_t (p : ProjectInputs) (year : ℕ) : ℚ :=
  p.Capacity * p.OM_Cost_per_MW_year * (1 + p.OM_Escalation) ^ (year - 1)

/-- calc_EBITDA_year_t: Revenue − OM. -/
def calc_EBITDA_year_t (p : ProjectInputs) (year : ℕ) : ℚ :=
  calc_Revenue_year_t p year - calc_OM_year_t p year

/-- calc_CFADS_year_t: EBITDA × (1 − Tax_Rate). -/
def calc_CFADS_year_t (p : ProjectInputs) (year : ℕ) : ℚ :=
  calc_EBITDA_year_t p year * (1 - p.Tax_Rate)

/-- The accumulation loop of calc_PV_of_CFADS after `n` years:
`pv_total += CFADS(year) / (1+Interest)^year` for year = 1..n. -/
def pvCfadsAux (p : ProjectInputs) : ℕ → ℚ
  | 0 => 0
  | n + 1 => pvCfadsAux p n + calc_CFADS_year_t p (n + 1) / (1 + p.Interest_Rate) ^ (n + 1)

/-- calc_PV_of_CFADS: Σ CFADS(t) / (1+Interest)^t over the debt tenor. -/
def calc_PV_of_CFADS (p : ProjectInputs) : ℚ :=
  pvCfadsAux p p.Debt_Tenor

/-- calc_Max_Debt_by_DSCR: PV_of_CFADS / Target_DSCR. -/
def calc_Max_Debt_by_DSCR (p : ProjectInputs) : ℚ :=
  calc_PV_of_CFADS p / p.Target_DSCR

/-- calc_Max_Debt_by_Gearing: Total_CapEx × Gearing_Ratio. -/
def calc_Max_Debt_by_Gearing (p : ProjectInputs) : ℚ :=
  calc_Total_CapEx p * p.Gearing_Ratio

/-- calc_Final_Debt: MIN of the two debt caps. -/
def calc_Final_Debt (p : ProjectInputs) : ℚ :=
  min (calc_Max_Debt_by_DSCR p) (calc_Max_Debt_by_Gearing p)

/-- calc_Equity: Total_CapEx − Final_Debt. -/
def calc_Equity (p : ProjectInputs) : ℚ :=
  calc_Total_CapEx p - calc_Final_Debt p

/-- calc_Annual_Debt_Service: −PMT(Interest, Tenor, Final_Debt). -/
def calc_Annual_Debt_Service (p : ProjectInputs) : ℚ :=
  -pmt_calc p.Interest_Rate p.Debt_Tenor (calc_Final_Debt p) 0

/-- calc_FCF_to_Equity_year_t: CFADS − Debt Service while `year ≤ Tenor`,
else CFADS. -/
def calc_FCF_to_Equity_year_t (p : ProjectInputs) (year : ℕ) : ℚ :=
  if year ≤ p.Debt_Tenor then calc_CFADS_year_t p year - calc_Annual_Debt_Service p
  else calc_CFADS_year_t p year

/-- calc_DSCR_year_t: None beyond the tenor, None when the annual debt service
is zero, otherwise CFADS / Annual_Debt_Service. -/
def calc_DSCR_year_t (p : ProjectInputs) (year : ℕ) : Option ℚ :=
  if p.Debt_Tenor < year then none
  else if calc_Annual_Debt_Service p = 0 then none
  else some (calc_CFADS_year_t p year / calc_Annual_Debt_Service p)

/-- calc_Minimum_DSCR: the minimum of the non-None DSCR values over years
1..tenor, None when that collection is empty. -/
def calc_Minimum_DSCR (p : ProjectInputs) : Option ℚ :=
  match ((List.range p.Debt_Tenor).map (fun k => calc_DSCR_year_t p (k + 1))).filterMap id with
  | [] => none
  | v :: vs => some (vs.foldl min v)

/-- The cash-flow list built by calc_Project_IRR:
[−Total_CapEx, CFADS(1), …, CFADS(lifetime)]. -/
def project_cash_flows (p : ProjectInputs) : List ℚ :=
  (-calc_Total_CapEx p) ::
    (List.range p.Project_Lifetime).map (fun k => calc_CFADS_year_t p (k + 1))

/-- calc_Project_IRR: irr_calc on the project cash flows (default guess 0.1). -/
def calc_Project_IRR (p : ProjectInputs) : ℚ :=
  irr_calc (project_cash_flows p) (1 / 10)

/-- Cumulative FCF to equity through year k (the running accumulator of
calc_Equity_Payback_Period after k loop iterations). -/
def cumFCF (p : ProjectInputs) : ℕ → ℚ
  | 0 => 0
  | k + 1 => cumFCF p k + calc_FCF_to_Equity_year_t p (k + 1)

/-- Cumulative CFADS through year k (the running accumulator of
calc_Project_Payback_Period after k loop iterations). -/
def cumCFADS (p : ProjectInputs) : ℕ → ℚ
  | 0 => 0
  | k + 1 => cumCFADS p k + calc_CFADS_year_t p (k + 1)

/-- The year loop of calc_Equity_Payback_Period, `fuel` years remaining,
`cum` the cumulative FCF entering year `year`.  Fuel 0 is the fall-through:
`None if cumulative_fcf < 0 else Project_Lifetime`. -/
def equityPaybackGo (p : ProjectInputs) : ℕ → ℕ → ℚ → Option ℚ
  | 0, _, cum => if cum < 0 then none else some ((p.Project_Lifetime : ℚ))
  | n + 1, year, cum =>
    let fcf := calc_FCF_to_Equity_year_t p year
    let prev := cum
    let cum2 := cum + fcf
    if prev < 0 ∧ 0 ≤ cum2 then
      some ((year : ℚ) - 1 + (if fcf ≠ 0 then -prev / fcf else 0))
    else equityPaybackGo p n (year + 1) cum2

/-- calc_Equity_Payback_Period of calculator.py. -/
def calc_Equity_Payback_Period (p : ProjectInputs) : Option ℚ :=
  equityPaybackGo p p.Project_Lifetime 1 0

/-- The year loop of calc_Project_Payback_Period; the branch fires on
`cumulative_cfads >= total_capex`. -/
def projectPaybackGo (p : ProjectInputs) : ℕ → ℕ → ℚ → Option ℚ
  | 0, _, cum => if cum < calc_Total_CapEx p then none else some ((p.Project_Lifetime : ℚ))
  | n + 1, year, cum =>
    let cfads := calc_CFADS_year_t p year
    let prev := cum
    let cum2 := cum + cfads
    if calc_Total_CapEx p ≤ cum2 then
      some ((year : ℚ) - 1 + (if cfads ≠ 0 then (calc_Total_CapEx p - prev) / cfads else 0))
    else projectPaybackGo p n (year + 1) cum2

/-- calc_Project_Payback_Period of calculator.py. -/
def calc_Project_Payback_Period (p : ProjectInputs) : Option ℚ :=
  projectPaybackGo p p.Project_Lifetime 1 0

/-- The binding-constraint classification shared verbatim by
generate_summary_report (line 365) and generate_calculation_audit_log
(line 520): `"DSCR" if max_debt_dscr < max_debt_gearing else "Gearing"`. -/
def binding_constraint (p : ProjectInputs) : String :=
  if calc_Max_Debt_by_DSCR p < calc_Max_Debt_by_Gearing p then "DSCR" else "Gearing"

/-- The DSCR branch of assess_project (lines 893–898).  `none` models the
TypeError Python raises when min_dscr is None and `min_dscr >= 1.30` is
evaluated; on a number the fixed threshold bands apply. -/
def assess_dscr (min_dscr : Option ℚ) : Option String :=
  match min_dscr with
  | none => none
  | some v =>
    some (if (13 : ℚ) / 10 ≤ v then "GOOD"
          else if (12 : ℚ) / 10 ≤ v then "MARGINAL" else "POOR")

/-- The DSCR assessment as generate_summary_report reaches it: assess_project
applied to calc_Minimum_DSCR. -/
def summary_dscr_assessment (p : ProjectInputs) : Option String :=
  assess_dscr (calc_Minimum_DSCR p)

/-- Modelled from the spec: the monthly energy variant
`X_month(t, m) = X_year(t) / 12` (§4.2); calc_Energy_month_t exists only in
the repository's tests and callers, not under src. -/
def calc_Energy_month_t (p : ProjectInputs) (year : ℕ) (_month : ℕ) : ℚ :=
  calc_Energy_year_t p year / 12

/-- Modelled from the spec: the monthly revenue variant, a flat 1/12 split. -/
def calc_Revenue_month_t (p : ProjectInputs) (year : ℕ) (_month : ℕ) : ℚ :=
  calc_Revenue_year_t p year / 12

/-- Modelled from the spec: the monthly O&M variant, a flat 1/12 split. -/
def calc_OM_month_t (p : ProjectInputs) (year : ℕ) (_month : ℕ) : ℚ :=
  calc_OM_year_t p year / 12

/-- Modelled from the spec: the monthly EBITDA variant, a flat 1/12 split. -/
def calc_EBITDA_month_t (p : ProjectInputs) (year : ℕ) (_month : ℕ) : ℚ :=
  calc_EBITDA_year_t p year / 12

/-- Modelled from the spec: the monthly CFADS variant, a flat 1/12 split. -/
def calc_CFADS_month_t (p : ProjectInputs) (year : ℕ) (_month : ℕ) : ℚ :=
  calc_CFADS_year_t p year / 12

/-- Modelled from the spec: the monthly FCF-to-equity variant, a flat 1/12
split. -/
def calc_FCF_to_Equity_month_t (p : ProjectInputs) (year : ℕ) (_month : ℕ) : ℚ :=
  calc_FCF_to_Equity_year_t p year / 12

/-- Replacing only the PPA price of an input record (two inputs that "differ
only in PPA price"). -/
def setPPA (p : ProjectInputs) (price : ℚ) : ProjectInputs :=
  { p with PPA_Price := price }

/-- The spec's §8 end-to-end example inputs (capacity 50 MW, yield 96,360 MWh,
gearing 0.75, tenor 15, lifetime 25). -/
def exStd : ProjectInputs :=
  ⟨50, 96360, 1000000, 70, 15000, 1/250, 1/100, 1/100, 3/4, 9/200, 15, 13/10, 25, 1/4, 2/25⟩

/-- A valid input on which the two debt caps are exactly equal
(both 500,000): tenor 1, CFADS(1) = 676,000, interest 4%, target DSCR 1.3,
CapEx 1,000,000, gearing 0.5. -/
def exC3 : ProjectInputs :=
  ⟨1, 10000, 1000000, 338/5, 0, 0, 0, 0, 1/2, 1/25, 1, 13/10, 1, 0, 1/10⟩

/-- A valid input with gearing 0 and positive CFADS: the final debt is 0, the
annual debt service is 0, and every DSCR within the tenor is None. -/
def exC5 : ProjectInputs :=
  ⟨1, 10, 1000, 10, 1, 0, 0, 0, 0, 1/10, 2, 13/10, 2, 0, 1/10⟩

/-- A valid input whose cumulative FCF is non-negative from year 1 on
(gearing 0, positive FCF every year, lifetime 3): no crossing ever fires. -/
def exC7c : ProjectInputs :=
  ⟨1, 10, 1000, 10, 1, 0, 0, 0, 0, 1/10, 2, 13/10, 3, 0, 1/10⟩

/-- A valid input with gearing 0 but negative CFADS (O&M 1000 ≫ revenue 1):
the DSCR debt cap is negative, so min with 0 picks the negative debt. -/
def exC8c : ProjectInputs :=
  ⟨1, 1, 1000, 1, 1000, 0, 0, 0, 0, 1/10, 1, 2, 1, 0, 1/10⟩

/-- A valid input with gearing 0 and positive CFADS, used to witness the
amended zero-gearing property. -/
def exC8w : ProjectInputs :=
  ⟨1, 10, 1000, 10, 1, 0, 0, 0, 0, 1/10, 2, 13/10, 2, 0, 1/10⟩

/-- A valid input with a tiny yield (1e-9 MWh): the project NPV at the initial
guess is within the 1e-6 tolerance for PPA price 1 and for PPA price 2 alike,
so irr_calc returns the untouched guess for both. -/
def exC9 : ProjectInputs :=
  ⟨1, 1/1000000000, 15/11000000000, 1, 0, 0, 0, 0, 1/2, 1/10, 1, 13/10, 1, 0, 1/10⟩

/-- A valid input whose cumulative FCF to equity is negative through year 8 and
crosses to non-negative in year 9 (growing CFADS against a flat debt
service sized at target DSCR 1.01 over a 10-year tenor). -/
def exC6a : ProjectInputs :=
  ⟨1, 10, 1000, 10, 0, 0, 1/10, 0, 1, 1/10, 10, 101/100, 12, 0, 1/10⟩

/-- A valid input whose cumulative CFADS (100 per year) reaches the total
CapEx of 250 in year 3, half-way through the year. -/
def exC6b : ProjectInputs :=
  ⟨1, 10, 250, 10, 0, 0, 0, 0, 1/2, 1/10, 1, 13/10, 3, 0, 1/10⟩

/-- A valid input with gearing 0 and positive CFADS on which the summary
report's DSCR assessment is reached with a None minimum DSCR. -/
def exC10 : ProjectInputs :=
  ⟨1, 100, 1000, 10, 1, 0, 0, 0, 0, 1/10, 2, 13/10, 2, 0, 1/10⟩

lemma cumFCF_zero (p : ProjectInputs) : cumFCF p 0 = 0 := rfl

lemma cumFCF_succ (p : ProjectInputs) (k : ℕ) :
    cumFCF p (k + 1) = cumFCF p k + calc_FCF_to_Equity_year_t p (k + 1) := rfl

lemma cumCFADS_zero (p : ProjectInputs) : cumCFADS p 0 = 0 := rfl

lemma cumCFADS_succ (p : ProjectInputs) (k : ℕ) :
    cumCFADS p (k + 1) = cumCFADS p k + calc_CFADS_year_t p (k + 1) := rfl

lemma equityPaybackGo_cross (p : ProjectInputs) (y : ℕ) (hy1 : 1 ≤ y)
    (hyL : y ≤ p.Project_Lifetime)
    (hprev : cumFCF p (y - 1) < 0) (hcur : 0 ≤ cumFCF p y)
    (hfirst : ∀ k, k < y → 1 ≤ k → ¬(cumFCF p (k - 1) < 0 ∧ 0 ≤ cumFCF p k)) :
    ∀ n j, j + n = p.Project_Lifetime → j < y →
      equityPaybackGo p n (j + 1) (cumFCF p j) =
        some ((y : ℚ) - 1 +
          (if calc_FCF_to_Equity_year_t p y ≠ 0 then
            -cumFCF p (y - 1) / calc_FCF_to_Equity_year_t p y else 0)) := by
  intro n
  induction n with
  | zero =>
    intro j hj hjy
    exfalso; omega
  | succ m ih =>
    intro j hj hjy
    simp only [equityPaybackGo]
    rw [← cumFCF_succ p j]
    rcases Nat.lt_or_ge (j + 1) y with hlt | hge
    · rw [if_neg (hfirst (j + 1) hlt (by omega) ∘ fun hc => ⟨by simpa using hc.1, hc.2⟩)]
      exact ih (j + 1) (by omega) hlt
    · have hjy1 : j + 1 = y := by omega
      have hj' : j = y - 1 := by omega
      rw [if_pos ⟨by rw [hj']; exact hprev, by rw [hjy1]; exact hcur⟩]
      subst hj'
      rw [hjy1]

lemma equityPaybackGo_nocross (p : ProjectInputs)
    (hfirst : ∀ k, k ≤ p.Project_Lifetime → 1 ≤ k →
      ¬(cumFCF p (k - 1) < 0 ∧ 0 ≤ cumFCF p k)) :
    ∀ n j, j + n = p.Project_Lifetime →
      equityPaybackGo p n (j + 1) (cumFCF p j) =
        if cumFCF p p.Project_Lifetime < 0 then none
        else some ((p.Project_Lifetime : ℚ)) := by
  intro n
  induction n with
  | zero =>
    intro j hj
    have hjL : j = p.Project_Lifetime := by omega
    subst hjL
    rfl
  | succ m ih =>
    intro j hj
    simp only [equityPaybackGo]
    rw [← cumFCF_succ p j]
    rw [if_neg (hfirst (j + 1) (by omega) (by omega) ∘
      fun hc => ⟨by simpa using hc.1, hc.2⟩)]
    exact ih (j + 1) (by omega)

lemma projectPaybackGo_cross (p : ProjectInputs) (y : ℕ) (hy1 : 1 ≤ y)
    (hyL : y ≤ p.Project_Lifetime)
    (hcur : calc_Total_CapEx p ≤ cumCFADS p y)
    (hbefore : ∀ k, k < y → 1 ≤ k → cumCFADS p k < calc_Total_CapEx p) :
    ∀ n j, j + n = p.Project_Lifetime → j < y →
      projectPaybackGo p n (j + 1) (cumCFADS p j) =
        some ((y : ℚ) - 1 +
          (if calc_CFADS_year_t p y ≠ 0 then
            (calc_Total_CapEx p - cumCFADS p (y - 1)) / calc_CFADS_year_t p y else 0)) := by
  intro n
  induction n with
  | zero =>
    intro j hj hjy
    exfalso; omega
  | succ m ih =>
    intro j hj hjy
    simp only [projectPaybackGo]
    rw [← cumCFADS_succ p j]
    rcases Nat.lt_or_ge (j + 1) y with hlt | hge
    · rw [if_neg (not_le.2 (hbefore (j + 1) hlt (by omega)))]
      exact ih (j + 1) (by omega) hlt
    · have hjy1 : j + 1 = y := by omega
      have hj' : j = y - 1 := by omega
      rw [if_pos (by rw [hjy1]; exact hcur)]
      subst hj'
      rw [hjy1]

/-- C6: for both payback computations, on the first year where the cumulative
series crosses its threshold (zero for equity payback, total CapEx for project
payback), the returned value is year − 1 + fraction, with
fraction = −previousCumulative/periodValue (equity) resp.
(totalCapEx − previousCumulative)/periodValue (project), and fraction 0 when
the period value is exactly 0. -/
theorem C6_payback_interpolation (p q : ProjectInputs) (y z : ℕ)
    (hy1 : 1 ≤ y) (hyL : y ≤ p.Project_Lifetime)
    (hprev : cumFCF p (y - 1) < 0) (hcur : 0 ≤ cumFCF p y)
    (hfirst : ∀ k, k < y → 1 ≤ k → ¬(cumFCF p (k - 1) < 0 ∧ 0 ≤ cumFCF p k))
    (hz1 : 1 ≤ z) (hzL : z ≤ q.Project_Lifetime)
    (hzcur : calc_Total_CapEx q ≤ cumCFADS q z)
    (hzbefore : ∀ k, k < z → 1 ≤ k → cumCFADS q k < calc_Total_CapEx q) :
    calc_Equity_Payback_Period p =
      some ((y : ℚ) - 1 +
        (if calc_FCF_to_Equity_year_t p y ≠ 0 then
          -cumFCF p (y - 1) / calc_FCF_to_Equity_year_t p y else 0)) ∧
    calc_Project_Payback_Period q =
      some ((z : ℚ) - 1 +
        (if calc_CFADS_year_t q z ≠ 0 then
          (calc_Total_CapEx q - cumCFADS q (z - 1)) / calc_CFADS_year_t q z else 0)) := by
  constructor
  · unfold calc_Equity_Payback_Period
    rw [show (0 : ℚ) = cumFCF p 0 from (cumFCF_zero p).symm]
    exact equityPaybackGo_cross p y hy1 hyL hprev hcur hfirst p.Project_Lifetime 0
      (by omega) (by omega)
  · unfold calc_Project_Payback_Period
    rw [show (0 : ℚ) = cumCFADS q 0 from (cumCFADS_zero q).symm]
    exact projectPaybackGo_cross q z hz1 hzL hzcur hzbefore q.Project_Lifetime 0
      (by omega) (by omega)

/-- Witness for C6: a concrete equity crossing in year 9 of exC6a and a
concrete project crossing in year 3 of exC6b, settled by applying
C6_payback_interpolation with every hypothesis checked numerically. -/
theorem C6_payback_interpolation_witness :
    calc_Equity_Payback_Period exC6a =
      some (((9 : ℕ) : ℚ) - 1 +
        (if calc_FCF_to_Equity_year_t exC6a 9 ≠ 0 then
          -cumFCF exC6a 8 / calc_FCF_to_Equity_year_t exC6a 9 else 0)) ∧
    calc_Project_Payback_Period exC6b =
      some (((3 : ℕ) : ℚ) - 1 +
        (if calc_CFADS_year_t exC6b 3 ≠ 0 then
          (calc_Total_CapEx exC6b - cumCFADS exC6b 2) / calc_CFADS_year_t exC6b 3 else 0)) := by
  have hads : calc_Annual_Debt_Service exC6a = 235794769100000 / 1609679884701 := by
    norm_num [calc_Annual_Debt_Service, pmt_calc, calc_Final_Debt, calc_Max_Debt_by_DSCR,
      calc_Max_Debt_by_Gearing, calc_PV_of_CFADS, pvCfadsAux, calc_CFADS_year_t,
      calc_EBITDA_year_t, calc_Revenue_year_t, calc_OM_year_t, calc_Energy_year_t,
      calc_Total_CapEx, min_def, exC6a]
  refine C6_payback_interpolation exC6a exC6b 9 3 (by norm_num) (by norm_num [exC6a]) ?_ ?_ ?_
    (by norm_num) (by norm_num [exC6b]) ?_ ?_
  · simp only [cumFCF, calc_FCF_to_Equity_year_t, hads]
    norm_num [exC6a, calc_CFADS_year_t, calc_EBITDA_year_t, calc_Revenue_year_t,
      calc_OM_year_t, calc_Energy_year_t]
  · simp only [cumFCF, calc_FCF_to_Equity_year_t, hads]
    norm_num [exC6a, calc_CFADS_year_t, calc_EBITDA_year_t, calc_Revenue_year_t,
      calc_OM_year_t, calc_Energy_year_t]
  · intro k hk hk1
    interval_cases k <;>
      (simp only [cumFCF, calc_FCF_to_Equity_year_t, hads]
       norm_num [exC6a, calc_CFADS_year_t, calc_EBITDA_year_t, calc_Revenue_year_t,
         calc_OM_year_t, calc_Energy_year_t])
  · norm_num [cumCFADS, calc_CFADS_year_t, calc_EBITDA_year_t, calc_Revenue_year_t,
      calc_OM_year_t, calc_Energy_year_t, calc_Total_CapEx, exC6b]
  · intro k hk hk1
    interval_cases k <;>
      norm_num [cumCFADS, calc_CFADS_year_t, calc_EBITDA_year_t, calc_Revenue_year_t,
        calc_OM_year_t, calc_Energy_year_t, calc_Total_CapEx, exC6b]

/-- C7 amended: equity payback is None exactly when the year walk detects no
negative-to-non-negative crossing and the cumulative FCF is still negative
after the final year; and when no crossing is detected but the final
cumulative is non-negative (in particular when cumulative FCF is non-negative
already at year 1 and never dips below zero), the result is Project_Lifetime —
not a year-1 interpolation. -/
theorem C7_equity_payback_none (p : ProjectInputs) :
    (calc_Equity_Payback_Period p = none ↔
      ((∀ k, k ≤ p.Project_Lifetime → 1 ≤ k →
          ¬(cumFCF p (k - 1) < 0 ∧ 0 ≤ cumFCF p k)) ∧
        cumFCF p p.Project_Lifetime < 0)) ∧
    ((∀ k, k ≤ p.Project_Lifetime → 1 ≤ k →
        ¬(cumFCF p (k - 1) < 0 ∧ 0 ≤ cumFCF p k)) →
      0 ≤ cumFCF p p.Project_Lifetime →
      calc_Equity_Payback_Period p = some ((p.Project_Lifetime : ℚ))) := by
  have hrun : ∀ hfirst : (∀ k, k ≤ p.Project_Lifetime → 1 ≤ k →
      ¬(cumFCF p (k - 1) < 0 ∧ 0 ≤ cumFCF p k)),
      calc_Equity_Payback_Period p =
        if cumFCF p p.Project_Lifetime < 0 then none
        else some ((p.Project_Lifetime : ℚ)) := by
    intro hfirst
    unfold calc_Equity_Payback_Period
    rw [show (0 : ℚ) = cumFCF p 0 from (cumFCF_zero p).symm]
    exact equityPaybackGo_nocross p hfirst p.Project_Lifetime 0 (by omega)
  constructor
  · constructor
    · intro hnone
      by_cases hex : ∃ k, k ≤ p.Project_Lifetime ∧ 1 ≤ k ∧
          cumFCF p (k - 1) < 0 ∧ 0 ≤ cumFCF p k
      · exfalso
        have hyspec := Nat.find_spec hex
        have hyL : Nat.find hex ≤ p.Project_Lifetime := hyspec.1
        have hy1 : 1 ≤ Nat.find hex := hyspec.2.1
        have hcross := equityPaybackGo_cross p (Nat.find hex) hy1 hyL
          hyspec.2.2.1 hyspec.2.2.2
          (fun k hk hk1 hc => Nat.find_min hex hk ⟨by omega, hk1, hc⟩)
          p.Project_Lifetime 0 (by omega) (by omega)
        rw [calc_Equity_Payback_Period,
          show (0 : ℚ) = cumFCF p 0 from (cumFCF_zero p).symm] at hnone
        rw [hnone] at hcross
        exact Option.noConfusion hcross
      · push_neg at hex
        have hfirst : ∀ k, k ≤ p.Project_Lifetime → 1 ≤ k →
            ¬(cumFCF p (k - 1) < 0 ∧ 0 ≤ cumFCF p k) := by
          intro k hk hk1 hc
          exact absurd hc.2 (by simpa using hex k hk hk1 hc.1)
        refine ⟨hfirst, ?_⟩
        by_contra hge
        rw [hrun hfirst, if_neg hge] at hnone
        exact Option.noConfusion hnone
    · intro hyp
      rw [hrun hyp.1, if_pos hyp.2]
  · intro hfirst hge
    rw [hrun hfirst, if_neg (not_lt.2 hge)]

/-- Witness for C7 amended: at exC7c the walk detects no crossing, the final
cumulative FCF is non-negative, and the result is the project lifetime. -/
theorem C7_equity_payback_none_witness :
    calc_Equity_Payback_Period exC7c = some ((exC7c.Project_Lifetime : ℚ)) := by
  have hads : calc_Annual_Debt_Service exC7c = 0 := by
    norm_num [calc_Annual_Debt_Service, pmt_calc, calc_Final_Debt, calc_Max_Debt_by_DSCR,
      calc_Max_Debt_by_Gearing, calc_PV_of_CFADS, pvCfadsAux, calc_CFADS_year_t,
      calc_EBITDA_year_t, calc_Revenue_year_t, calc_OM_year_t, calc_Energy_year_t,
      calc_Total_CapEx, min_def, exC7c]
  refine (C7_equity_payback_none exC7c).2 ?_ ?_
  · intro k hk hk1
    have hk3 : k ≤ 3 := by simpa [exC7c] using hk
    interval_cases k <;>
      (simp only [cumFCF, calc_FCF_to_Equity_year_t, hads]
       norm_num [exC7c, calc_CFADS_year_t, calc_EBITDA_year_t, calc_Revenue_year_t,
         calc_OM_year_t, calc_Energy_year_t])
  · simp only [cumFCF, calc_FCF_to_Equity_year_t, hads]
    norm_num [exC7c, calc_CFADS_year_t, calc_EBITDA_year_t, calc_Revenue_year_t,
      calc_OM_year_t, calc_Energy_year_t]

/-- Counterexample for C7 as stated: at the valid input exC7c the cumulative
FCF is non-negative already at year 1 and no strict crossing occurs anywhere,
yet the computation returns the project lifetime 3 — not the value a normal
crossing at year 1 would give (year − 1 + fraction = 0, since the previous
cumulative at year 1 is 0). -/
theorem C7_counterexample :
    Valid exC7c ∧ 0 ≤ cumFCF exC7c 1 ∧
    calc_Equity_Payback_Period exC7c = some 3 ∧
    ((3 : ℚ)) ≠ (1 : ℚ) - 1 + -cumFCF exC7c 0 / calc_FCF_to_Equity_year_t exC7c 1 := by
  have hads : calc_Annual_Debt_Service exC7c = 0 := by
    norm_num [calc_Annual_Debt_Service, pmt_calc, calc_Final_Debt, calc_Max_Debt_by_DSCR,
      calc_Max_Debt_by_Gearing, calc_PV_of_CFADS, pvCfadsAux, calc_CFADS_year_t,
      calc_EBITDA_year_t, calc_Revenue_year_t, calc_OM_year_t, calc_Energy_year_t,
      calc_Total_CapEx, min_def, exC7c]
  have hfirst : ∀ k, k ≤ exC7c.Project_Lifetime → 1 ≤ k →
      ¬(cumFCF exC7c (k - 1) < 0 ∧ 0 ≤ cumFCF exC7c k) := by
    intro k hk hk1
    have hk3 : k ≤ 3 := by simpa [exC7c] using hk
    interval_cases k <;>
      (simp only [cumFCF, calc_FCF_to_Equity_year_t, hads]
       norm_num [exC7c, calc_CFADS_year_t, calc_EBITDA_year_t, calc_Revenue_year_t,
         calc_OM_year_t, calc_Energy_year_t])
  refine ⟨by norm_num [Valid, exC7c], ?_, ?_, ?_⟩
  · simp only [cumFCF, calc_FCF_to_Equity_year_t, hads]
    norm_num [exC7c, calc_CFADS_year_t, calc_EBITDA_year_t, calc_Revenue_year_t,
      calc_OM_year_t, calc_Energy_year_t]
  · rw [calc_Equity_Payback_Period,
      show (0 : ℚ) = cumFCF exC7c 0 from (cumFCF_zero exC7c).symm,
      equityPaybackGo_nocross exC7c hfirst exC7c.Project_Lifetime 0 (by omega)]
    rw [if_neg (by
      simp only [cumFCF, calc_FCF_to_Equity_year_t, hads]
      norm_num [exC7c, calc_CFADS_year_t, calc_EBITDA_year_t, calc_Revenue_year_t,
        calc_OM_year_t, calc_Energy_year_t])]
    norm_num [exC7c]
  · simp only [cumFCF]
    norm_num

/-- C1: for every valid input, the final debt is the minimum of the DSCR-based
debt cap (PV of CFADS over the tenor at the interest rate, divided by the
target DSCR) and the gearing-based cap (total CapEx times gearing ratio), and
final debt plus equity equals total CapEx exactly. -/
theorem C1_debt_structure (p : ProjectInputs) (_hv : Valid p) :
    calc_Final_Debt p =
      min (calc_PV_of_CFADS p / p.Target_DSCR) (calc_Total_CapEx p * p.Gearing_Ratio) ∧
    calc_Final_Debt p + calc_Equity p = calc_Total_CapEx p := by
  refine ⟨rfl, ?_⟩
  unfold calc_Equity
  ring

/-- Witness for C1 at the spec's §8 example inputs. -/
theorem C1_debt_structure_witness :
    Valid exStd ∧
    calc_Final_Debt exStd + calc_Equity exStd = calc_Total_CapEx exStd := by
  have hv : Valid exStd := by norm_num [Valid, exStd]
  exact ⟨hv, (C1_debt_structure exStd hv).2⟩

/-- C2 (monthly variants are modelled from the spec, the code being absent
from src): for every year within the lifetime and month 1..12, each monthly
quantity is exactly one twelfth of its yearly value, and the twelve monthly
entries of a year sum exactly to the yearly entry, for all six quantities
energy, revenue, O&M cost, EBITDA, CFADS and FCF. -/
theorem C2_monthly_split (p : ProjectInputs) (t m : ℕ)
    (_ht1 : 1 ≤ t) (_htL : t ≤ p.Project_Lifetime) (_hm1 : 1 ≤ m) (_hm12 : m ≤ 12) :
    (calc_Energy_month_t p t m = calc_Energy_year_t p t / 12 ∧
     calc_Revenue_month_t p t m = calc_Revenue_year_t p t / 12 ∧
     calc_OM_month_t p t m = calc_OM_year_t p t / 12 ∧
     calc_EBITDA_month_t p t m = calc_EBITDA_year_t p t / 12 ∧
     calc_CFADS_month_t p t m = calc_CFADS_year_t p t / 12 ∧
     calc_FCF_to_Equity_month_t p t m = calc_FCF_to_Equity_year_t p t / 12) ∧
    ((∑ mo in Finset.Icc 1 12, calc_Energy_month_t p t mo) = calc_Energy_year_t p t ∧
     (∑ mo in Finset.Icc 1 12, calc_Revenue_month_t p t mo) = calc_Revenue_year_t p t ∧
     (∑ mo in Finset.Icc 1 12, calc_OM_month_t p t mo) = calc_OM_year_t p t ∧
     (∑ mo in Finset.Icc 1 12, calc_EBITDA_month_t p t mo) = calc_EBITDA_year_t p t ∧
     (∑ mo in Finset.Icc 1 12, calc_CFADS_month_t p t mo) = calc_CFADS_year_t p t ∧
     (∑ mo in Finset.Icc 1 12, calc_FCF_to_Equity_month_t p t mo) =
       calc_FCF_to_Equity_year_t p t) := by
  have htw : ∀ x : ℚ, (∑ _mo in Finset.Icc (1 : ℕ) 12, x / 12) = x := by
    intro x
    rw [Finset.sum_const, Nat.card_Icc, nsmul_eq_mul]
    push_cast
    ring
  exact ⟨⟨rfl, rfl, rfl, rfl, rfl, rfl⟩,
    htw _, htw _, htw _, htw _, htw _, htw _⟩

/-- Witness for C2 at the spec's §8 example inputs, year 1, month 1. -/
theorem C2_monthly_split_witness :
    (calc_Energy_month_t exStd 1 1 = calc_Energy_year_t exStd 1 / 12 ∧
     calc_Revenue_month_t exStd 1 1 = calc_Revenue_year_t exStd 1 / 12 ∧
     calc_OM_month_t exStd 1 1 = calc_OM_year_t exStd 1 / 12 ∧
     calc_EBITDA_month_t exStd 1 1 = calc_EBITDA_year_t exStd 1 / 12 ∧
     calc_CFADS_month_t exStd 1 1 = calc_CFADS_year_t exStd 1 / 12 ∧
     calc_FCF_to_Equity_month_t exStd 1 1 = calc_FCF_to_Equity_year_t exStd 1 / 12) ∧
    ((∑ mo in Finset.Icc 1 12, calc_Energy_month_t exStd 1 mo) = calc_Energy_year_t exStd 1 ∧
     (∑ mo in Finset.Icc 1 12, calc_Revenue_month_t exStd 1 mo) = calc_Revenue_year_t exStd 1 ∧
     (∑ mo in Finset.Icc 1 12, calc_OM_month_t exStd 1 mo) = calc_OM_year_t exStd 1 ∧
     (∑ mo in Finset.Icc 1 12, calc_EBITDA_month_t exStd 1 mo) = calc_EBITDA_year_t exStd 1 ∧
     (∑ mo in Finset.Icc 1 12, calc_CFADS_month_t exStd 1 mo) = calc_CFADS_year_t exStd 1 ∧
     (∑ mo in Finset.Icc 1 12, calc_FCF_to_Equity_month_t exStd 1 mo) =
       calc_FCF_to_Equity_year_t exStd 1) :=
  C2_monthly_split exStd 1 1 (by norm_num) (by norm_num [exStd]) (by norm_num) (by norm_num)

/-- C3 amended: the binding constraint is classified as DSCR exactly when the
DSCR cap is strictly below the gearing cap; ties and the strictly-greater case
are both classified as Gearing (the strict less-than of the code sends exact
ties to the Gearing label, not to DSCR). -/
theorem C3_binding_constraint (p : ProjectInputs) :
    (binding_constraint p = "DSCR" ↔
      calc_Max_Debt_by_DSCR p < calc_Max_Debt_by_Gearing p) ∧
    (binding_constraint p = "Gearing" ↔
      calc_Max_Debt_by_Gearing p ≤ calc_Max_Debt_by_DSCR p) := by
  unfold binding_constraint
  by_cases h : calc_Max_Debt_by_DSCR p < calc_Max_Debt_by_Gearing p
  · rw [if_pos h]
    exact ⟨⟨fun _ => h, fun _ => rfl⟩,
      ⟨fun hs => absurd hs (by decide), fun hle => absurd h (not_lt.2 hle)⟩⟩
  · rw [if_neg h]
    exact ⟨⟨fun hs => absurd hs (by decide), fun hlt => absurd hlt h⟩,
      ⟨fun _ => not_lt.1 h, fun _ => rfl⟩⟩

/-- Counterexample for C3 as stated: at the valid input exC3 the two debt caps
are exactly equal (both 500,000), yet the code classifies the binding
constraint as "Gearing", not "DSCR". -/
theorem C3_counterexample :
    Valid exC3 ∧
    calc_Max_Debt_by_DSCR exC3 = calc_Max_Debt_by_Gearing exC3 ∧
    binding_constraint exC3 = "Gearing" ∧
    binding_constraint exC3 ≠ "DSCR" := by
  have heq : calc_Max_Debt_by_DSCR exC3 = calc_Max_Debt_by_Gearing exC3 := by
    norm_num [calc_Max_Debt_by_DSCR, calc_Max_Debt_by_Gearing, calc_PV_of_CFADS,
      pvCfadsAux, calc_CFADS_year_t, calc_EBITDA_year_t, calc_Revenue_year_t,
      calc_OM_year_t, calc_Energy_year_t, calc_Total_CapEx, exC3]
  refine ⟨by norm_num [Valid, exC3], heq, ?_, ?_⟩
  · unfold binding_constraint
    rw [if_neg (by rw [heq]; exact lt_irrefl _)]
  · unfold binding_constraint
    rw [if_neg (by rw [heq]; exact lt_irrefl _)]
    decide

lemma irr_go_eq_tagged (values : List ℚ) :
    ∀ n rate, irr_go values n rate = (irr_go_tagged values n rate).rate := by
  intro n
  induction n with
  | zero => intro rate; rfl
  | succ m ih =>
    intro rate
    simp only [irr_go, irr_go_tagged]
    by_cases h1 : |npv_at_rate values rate| < 1 / 1000000
    · rw [if_pos h1, if_pos h1]
      rfl
    · rw [if_neg h1, if_neg h1]
      by_cases h2 : |npv_derivative values rate| < 1 / 10000000000
      · rw [if_pos h2, if_pos h2]
        rfl
      · rw [if_neg h2, if_neg h2]
        exact ih _

/-- C4 amended: irr_calc returns an unqualified number in every case — it is
exactly the rate component of the spec's tagged outcome with the
converged/did-not-converge tag erased, so callers cannot distinguish
convergence from early termination from the returned value. -/
theorem C4_irr_untagged (values : List ℚ) (guess : ℚ) :
    irr_calc values guess = (irr_calc_tagged values guess).rate :=
  irr_go_eq_tagged values 100 guess

lemma irr_go_succ (values : List ℚ) (n : ℕ) (rate : ℚ) :
    irr_go values (n + 1) rate =
      if |npv_at_rate values rate| < 1 / 1000000 then rate
      else if |npv_derivative values rate| < 1 / 10000000000 then rate
      else irr_go values n
        (rate - npv_at_rate values rate / npv_derivative values rate) := rfl

lemma irr_go_tagged_succ (values : List ℚ) (n : ℕ) (rate : ℚ) :
    irr_go_tagged values (n + 1) rate =
      if |npv_at_rate values rate| < 1 / 1000000 then IRROutcome.Converged rate
      else if |npv_derivative values rate| < 1 / 10000000000 then
        IRROutcome.DidNotConverge rate
      else irr_go_tagged values n
        (rate - npv_at_rate values rate / npv_derivative values rate) := rfl

/-- Counterexample for C4 as stated: on [1] the loop terminates through the
derivative guard (DidNotConverge), on [1, −1.1] it terminates converged, yet
irr_calc returns the identical bare number 0.1 for both, so the outcome is
not a tagged result that callers could distinguish. -/
theorem C4_counterexample :
    irr_calc_tagged [1] (1 / 10) = IRROutcome.DidNotConverge (1 / 10) ∧
    irr_calc_tagged [1, -(11 / 10)] (1 / 10) = IRROutcome.Converged (1 / 10) ∧
    irr_calc [1] (1 / 10) = irr_calc [1, -(11 / 10)] (1 / 10) := by
  have hnpv1 : npv_at_rate [1] (1 / 10) = 1 := by
    norm_num [npv_at_rate, npvAux]
  have hderiv1 : npv_derivative [1] (1 / 10) = 0 := by
    norm_num [npv_derivative, npvDerivAux]
  have hnpv2 : npv_at_rate [1, -(11 / 10)] (1 / 10) = 0 := by
    norm_num [npv_at_rate, npvAux]
  have h100 : (100 : ℕ) = 99 + 1 := by norm_num
  refine ⟨?_, ?_, ?_⟩
  · rw [irr_calc_tagged, h100, irr_go_tagged_succ, hnpv1, hderiv1]
    rw [if_neg (by norm_num), if_pos (by norm_num)]
  · rw [irr_calc_tagged, h100, irr_go_tagged_succ, hnpv2]
    rw [if_pos (by norm_num)]
  · have hL : irr_calc [1] (1 / 10) = 1 / 10 := by
      rw [irr_calc, h100, irr_go_succ, hnpv1, hderiv1]
      rw [if_neg (by norm_num), if_pos (by norm_num)]
    have hR : irr_calc [1, -(11 / 10)] (1 / 10) = 1 / 10 := by
      rw [irr_calc, h100, irr_go_succ, hnpv2]
      rw [if_pos (by norm_num)]
    rw [hL, hR]

/-- C5 amended: the per-year DSCR is null for every year strictly beyond the
tenor, and within years 1..tenor it is non-null exactly when the annual debt
service is nonzero — with a zero debt service (reachable for valid inputs,
e.g. gearing 0) it is null even inside the tenor. -/
theorem C5_dscr_nullability (p : ProjectInputs) (t : ℕ) :
    (p.Debt_Tenor < t → calc_DSCR_year_t p t = none) ∧
    (t ≤ p.Debt_Tenor →
      (calc_DSCR_year_t p t ≠ none ↔ calc_Annual_Debt_Service p ≠ 0)) := by
  constructor
  · intro ht
    unfold calc_DSCR_year_t
    rw [if_pos ht]
  · intro ht
    unfold calc_DSCR_year_t
    rw [if_neg (not_lt.2 ht)]
    by_cases hz : calc_Annual_Debt_Service p = 0
    · rw [if_pos hz]
      simp [hz]
    · rw [if_neg hz]
      simp [hz]

/-- Witness for C5 amended at exC5, year 1 (inside the tenor of 2). -/
theorem C5_dscr_nullability_witness :
    (exC5.Debt_Tenor < 3 → calc_DSCR_year_t exC5 3 = none) ∧
    (1 ≤ exC5.Debt_Tenor →
      (calc_DSCR_year_t exC5 1 ≠ none ↔ calc_Annual_Debt_Service exC5 ≠ 0)) :=
  ⟨(C5_dscr_nullability exC5 3).1, (C5_dscr_nullability exC5 1).2⟩

/-- Counterexample for C5 as stated: exC5 is valid (gearing 0), year 1 lies
within the tenor, yet the per-year DSCR is null because the annual debt
service is zero — so non-null does not hold for every year up to the tenor. -/
theorem C5_counterexample :
    Valid exC5 ∧ 1 ≤ exC5.Debt_Tenor ∧ calc_DSCR_year_t exC5 1 = none := by
  have hads : calc_Annual_Debt_Service exC5 = 0 := by
    norm_num [calc_Annual_Debt_Service, pmt_calc, calc_Final_Debt, calc_Max_Debt_by_DSCR,
      calc_Max_Debt_by_Gearing, calc_PV_of_CFADS, pvCfadsAux, calc_CFADS_year_t,
      calc_EBITDA_year_t, calc_Revenue_year_t, calc_OM_year_t, calc_Energy_year_t,
      calc_Total_CapEx, min_def, exC5]
  refine ⟨by norm_num [Valid, exC5], by norm_num [exC5], ?_⟩
  unfold calc_DSCR_year_t
  rw [if_neg (by norm_num [exC5]), if_pos hads]

/-- C8 amended: with gearing ratio 0 and a non-negative PV of CFADS (so the
DSCR debt cap is non-negative and the minimum with the zero gearing cap is 0),
equity equals total CapEx, the annual debt service is 0, and FCF to equity
equals CFADS in every year.  (With a negative PV of CFADS the min picks the
negative DSCR cap instead, see the counterexample.) -/
theorem C8_zero_gearing (p : ProjectInputs) (t : ℕ) (hv : Valid p)
    (hg : p.Gearing_Ratio = 0) (hpv : 0 ≤ calc_PV_of_CFADS p) :
    calc_Equity p = calc_Total_CapEx p ∧
    calc_Annual_Debt_Service p = 0 ∧
    calc_FCF_to_Equity_year_t p t = calc_CFADS_year_t p t := by
  obtain ⟨hcap, hyield, hdg0, hdg1, hpe0, hpe1, hoe0, hoe1, hg0, hg1, hr0, hr1,
    hT0, hT1, hdscr, hL0, hL1, htx0, htx1, hdc0, hdc1⟩ := hv
  have hmg : calc_Max_Debt_by_Gearing p = 0 := by
    unfold calc_Max_Debt_by_Gearing
    rw [hg, mul_zero]
  have hmd : 0 ≤ calc_Max_Debt_by_DSCR p :=
    div_nonneg hpv (le_of_lt (lt_trans one_pos hdscr))
  have hfd : calc_Final_Debt p = 0 := by
    unfold calc_Final_Debt
    rw [hmg]
    exact min_eq_right hmd
  have hads : calc_Annual_Debt_Service p = 0 := by
    unfold calc_Annual_Debt_Service pmt_calc
    rw [hfd, if_neg (ne_of_gt hr0)]
    simp
  refine ⟨?_, hads, ?_⟩
  · unfold calc_Equity
    rw [hfd, sub_zero]
  · unfold calc_FCF_to_Equity_year_t
    by_cases ht : t ≤ p.Debt_Tenor
    · rw [if_pos ht, hads, sub_zero]
    · rw [if_neg ht]

/-- Witness for C8 amended at exC8w (gearing 0, positive CFADS), year 1. -/
theorem C8_zero_gearing_witness :
    Valid exC8w ∧ exC8w.Gearing_Ratio = 0 ∧ 0 ≤ calc_PV_of_CFADS exC8w ∧
    (calc_Equity exC8w = calc_Total_CapEx exC8w ∧
     calc_Annual_Debt_Service exC8w = 0 ∧
     calc_FCF_to_Equity_year_t exC8w 1 = calc_CFADS_year_t exC8w 1) := by
  have hv : Valid exC8w := by norm_num [Valid, exC8w]
  have hg : exC8w.Gearing_Ratio = 0 := by norm_num [exC8w]
  have hpv : 0 ≤ calc_PV_of_CFADS exC8w := by
    norm_num [calc_PV_of_CFADS, pvCfadsAux, calc_CFADS_year_t, calc_EBITDA_year_t,
      calc_Revenue_year_t, calc_OM_year_t, calc_Energy_year_t, exC8w]
  exact ⟨hv, hg, hpv, C8_zero_gearing exC8w 1 hv hg hpv⟩

/-- Counterexample for C8 as stated: exC8c is valid with gearing 0, but its
CFADS is negative (O&M far above revenue), the DSCR cap is negative, the final
debt is that negative cap, and so equity exceeds total CapEx, the annual debt
service is a nonzero negative number, and FCF differs from CFADS in year 1. -/
theorem C8_counterexample :
    Valid exC8c ∧ exC8c.Gearing_Ratio = 0 ∧
    calc_Equity exC8c ≠ calc_Total_CapEx exC8c ∧
    calc_Annual_Debt_Service exC8c ≠ 0 ∧
    calc_FCF_to_Equity_year_t exC8c 1 ≠ calc_CFADS_year_t exC8c 1 := by
  have hads : calc_Annual_Debt_Service exC8c = -(999 / 2) := by
    norm_num [calc_Annual_Debt_Service, pmt_calc, calc_Final_Debt, calc_Max_Debt_by_DSCR,
      calc_Max_Debt_by_Gearing, calc_PV_of_CFADS, pvCfadsAux, calc_CFADS_year_t,
      calc_EBITDA_year_t, calc_Revenue_year_t, calc_OM_year_t, calc_Energy_year_t,
      calc_Total_CapEx, min_def, exC8c]
  refine ⟨by norm_num [Valid, exC8c], by norm_num [exC8c], ?_, ?_, ?_⟩
  · norm_num [calc_Equity, calc_Final_Debt, calc_Max_Debt_by_DSCR,
      calc_Max_Debt_by_Gearing, calc_PV_of_CFADS, pvCfadsAux, calc_CFADS_year_t,
      calc_EBITDA_year_t, calc_Revenue_year_t, calc_OM_year_t, calc_Energy_year_t,
      calc_Total_CapEx, min_def, exC8c]
  · rw [hads]
    norm_num
  · simp only [calc_FCF_to_Equity_year_t, hads]
    norm_num [exC8c, calc_CFADS_year_t, calc_EBITDA_year_t, calc_Revenue_year_t,
      calc_OM_year_t, calc_Energy_year_t]

lemma forall2_map_lt {f g : ℕ → ℚ} (h : ∀ x, f x < g x) :
    ∀ l : List ℕ, List.Forall₂ (· < ·) (l.map f) (l.map g)
  | [] => List.Forall₂.nil
  | x :: xs => List.Forall₂.cons (h x) (forall2_map_lt h xs)

lemma npvAux_lt_of_forall2 (r : ℚ) (hr : -1 < r) :
    ∀ (l1 l2 : List ℚ) (i : ℕ), l1 ≠ [] → List.Forall₂ (· < ·) l1 l2 →
      npvAux r i l1 < npvAux r i l2 := by
  intro l1
  induction l1 with
  | nil => intro l2 i hne _; exact absurd rfl hne
  | cons a t1 ih =>
    intro l2 i _ hf
    cases hf with
    | @cons _ b _ t2 hab htail =>
      have hpow : (0 : ℚ) < (1 + r) ^ i := pow_pos (by linarith) i
      have hhead : a / (1 + r) ^ i < b / (1 + r) ^ i := by
        rw [div_eq_mul_inv, div_eq_mul_inv]
        exact mul_lt_mul_of_pos_right hab (inv_pos.2 hpow)
      have htle : npvAux r (i + 1) t1 ≤ npvAux r (i + 1) t2 := by
        cases t1 with
        | nil => cases htail; exact le_refl _
        | cons c t1x => exact (ih _ _ (by simp) htail).le
      simp only [npvAux]
      exact add_lt_add_of_lt_of_le hhead htle

/-- C9 amended: raising only the PPA price strictly raises the project NPV at
every rate above −1 (hence the exact IRR), provided the tax rate is below 1;
the rate actually returned by the iterative root finder need not strictly
increase, since its tolerance and derivative guard can return the identical
rate for both prices (see the counterexample). -/
theorem C9_npv_monotone (p : ProjectInputs) (x y r : ℚ) (hv : Valid p)
    (htax : p.Tax_Rate < 1) (hxy : x < y) (hr : -1 < r) :
    npv_at_rate (project_cash_flows (setPPA p x)) r <
      npv_at_rate (project_cash_flows (setPPA p y)) r := by
  obtain ⟨hcap, hyield, hdg0, hdg1, hpe0, hpe1, hoe0, hoe1, hg0, hg1, hr0, hr1,
    hT0, hT1, hdscr, hL0, hL1, htx0, htx1, hdc0, hdc1⟩ := hv
  unfold npv_at_rate project_cash_flows
  simp only [setPPA, npvAux]
  apply add_lt_add_left
  apply npvAux_lt_of_forall2 r hr
  · intro hemp
    rw [List.map_eq_nil_iff, List.range_eq_nil] at hemp
    omega
  · apply forall2_map_lt
    intro k
    unfold calc_CFADS_year_t calc_EBITDA_year_t calc_Revenue_year_t calc_OM_year_t
      calc_Energy_year_t
    simp only
    apply mul_lt_mul_of_pos_right _ (by linarith)
    apply sub_lt_sub_right
    have hE : (0 : ℚ) < p.P50_Year_0_Yield * (1 - p.Degradation_Rate) ^ (k + 1 - 1) :=
      mul_pos hyield (pow_pos (by linarith) _)
    have hP : (0 : ℚ) < (1 + p.PPA_Escalation) ^ (k + 1 - 1) :=
      pow_pos (by linarith) _
    exact mul_lt_mul_of_pos_right (mul_lt_mul_of_pos_left hxy hE) hP

/-- Witness for C9 amended at the §8 example inputs, prices 69 < 70, at the
project discount rate 0.08. -/
theorem C9_npv_monotone_witness :
    Valid exStd ∧ exStd.Tax_Rate < 1 ∧ ((69 : ℚ) < 70) ∧ ((-1 : ℚ) < 2 / 25) ∧
    npv_at_rate (project_cash_flows (setPPA exStd 69)) (2 / 25) <
      npv_at_rate (project_cash_flows (setPPA exStd 70)) (2 / 25) := by
  have hv : Valid exStd := by norm_num [Valid, exStd]
  exact ⟨hv, by norm_num [exStd], by norm_num, by norm_num,
    C9_npv_monotone exStd 69 70 (2 / 25) hv (by norm_num [exStd]) (by norm_num)
      (by norm_num)⟩

/-- Counterexample for C9 as stated: the two valid inputs differing only in
PPA price (1 versus 2) both make the Newton iteration stop at the initial
guess — the yield is tiny, so both NPVs at rate 0.1 are inside the 1e-6
tolerance — and the returned project IRR is exactly 0.1 for both, not
strictly larger for the higher price. -/
theorem C9_counterexample :
    Valid (setPPA exC9 1) ∧ Valid (setPPA exC9 2) ∧ ((1 : ℚ) < 2) ∧
    calc_Project_IRR (setPPA exC9 1) = calc_Project_IRR (setPPA exC9 2) := by
  have h100 : (100 : ℕ) = 99 + 1 := by norm_num
  have hnpv1 : npv_at_rate (project_cash_flows (setPPA exC9 1)) (1 / 10) =
      -(5 / 11000000000) := by
    norm_num [npv_at_rate, npvAux, project_cash_flows, List.range_succ,
      calc_CFADS_year_t, calc_EBITDA_year_t, calc_Revenue_year_t, calc_OM_year_t,
      calc_Energy_year_t, calc_Total_CapEx, setPPA, exC9]
  have hnpv2 : npv_at_rate (project_cash_flows (setPPA exC9 2)) (1 / 10) =
      5 / 11000000000 := by
    norm_num [npv_at_rate, npvAux, project_cash_flows, List.range_succ,
      calc_CFADS_year_t, calc_EBITDA_year_t, calc_Revenue_year_t, calc_OM_year_t,
      calc_Energy_year_t, calc_Total_CapEx, setPPA, exC9]
  have hL : calc_Project_IRR (setPPA exC9 1) = 1 / 10 := by
    rw [calc_Project_IRR, irr_calc, h100, irr_go_succ, hnpv1]
    rw [if_pos (by norm_num [abs])]
  have hR : calc_Project_IRR (setPPA exC9 2) = 1 / 10 := by
    rw [calc_Project_IRR, irr_calc, h100, irr_go_succ, hnpv2]
    rw [if_pos (by norm_num [abs])]
  exact ⟨by norm_num [Valid, setPPA, exC9], by norm_num [Valid, setPPA, exC9],
    by norm_num, hL.trans hR.symm⟩

/-- C10: a valid input (gearing 0, positive CFADS) on which every per-year
DSCR within the tenor is null, calc_Minimum_DSCR returns null, and the
summary report's DSCR assessment — which evaluates `min_dscr >= 1.30` on that
null — reaches its error branch (modelled as none), so summary-report
generation is not total over the spec's valid input domain. -/
theorem C10_summary_not_total :
    Valid exC10 ∧
    calc_DSCR_year_t exC10 1 = none ∧
    calc_DSCR_year_t exC10 2 = none ∧
    calc_Minimum_DSCR exC10 = none ∧
    summary_dscr_assessment exC10 = none := by
  have hads : calc_Annual_Debt_Service exC10 = 0 := by
    norm_num [calc_Annual_Debt_Service, pmt_calc, calc_Final_Debt, calc_Max_Debt_by_DSCR,
      calc_Max_Debt_by_Gearing, calc_PV_of_CFADS, pvCfadsAux, calc_CFADS_year_t,
      calc_EBITDA_year_t, calc_Revenue_year_t, calc_OM_year_t, calc_Energy_year_t,
      calc_Total_CapEx, min_def, exC10]
  have hd1 : calc_DSCR_year_t exC10 1 = none := by
    unfold calc_DSCR_year_t
    rw [if_neg (by norm_num [exC10]), if_pos hads]
  have hd2 : calc_DSCR_year_t exC10 2 = none := by
    unfold calc_DSCR_year_t
    rw [if_neg (by norm_num [exC10]), if_pos hads]
  have hmin : calc_Minimum_DSCR exC10 = none := by
    unfold calc_Minimum_DSCR
    have hrange : (List.range exC10.Debt_Tenor) = [0, 1] := by
      norm_num [exC10, List.range_succ]
    rw [hrange]
    simp [hd1, hd2]
  refine ⟨by norm_num [Valid, exC10], hd1, hd2, hmin, ?_⟩
  unfold summary_dscr_assessment
  rw [hmin]
  rfl
